import Mathlib

/-
Verification development for the Swarm local-LLM orchestrator
(swarm/core.py): a shallow embedding of the turn-orchestration and
tool-dispatch engine, together with theorems settling the behavioural
claims about it.

Modelling conventions:
* Python dicts are embedded as ordered association lists
  `List (String × PyVal)`; `dict.update` and item assignment are embedded
  by `dictUpdate` and `dictSet` below with Python's ordering semantics
  (existing keys keep their position and take the new value, new keys are
  appended in delta order).
* `copy.deepcopy` is the identity under Lean's value semantics, so it is
  not represented explicitly; the defensive-copy guarantees hold by
  construction.
* The chat-completion backend (`self.client.chat_completions_create`
  reached through `Swarm.get_chat_completion`) is an external
  collaborator; it is embedded as an oracle `Backend` receiving the
  active agent, the full history and the context variables — strictly
  more information than the request assembled by `get_chat_completion`
  carries — and producing the completion's single message.  Every real
  client is one such oracle.
* `debug_print` is advisory logging and never changes control flow; it is
  not represented.
* Raised Python exceptions are embedded with `Except PyErr`.
* The repository ships only swarm/core.py; the plain data containers it
  imports from swarm/types.py (Agent, Result, Response, tool-call
  records) are modelled from the spec, as marked on each definition.
-/

namespace Swarm

/-- Python values as far as this code manipulates them: strings, integers
and string-keyed dicts (ordered association lists).  This is the value
type of context-variable mappings and of deserialized tool-call argument
payloads. -/
inductive PyVal where
  | str : String → PyVal
  | int : Int → PyVal
  | dict : List (String × PyVal) → PyVal

/-- A Python dict with string keys, in insertion order. -/
abbrev Dict := List (String × PyVal)

/-- Context-variable mapping (spec §3: string keys to values, shared
across the conversation). -/
abbrev Ctx := Dict

/-- A deserialized tool-call argument payload: the mapping produced by
`json.loads(tool_call.function.arguments)`.  Argument payloads are
embedded in deserialized form; `json.loads` of a well-formed payload is
the identity of the model (malformed payloads, a fatal error per spec
§7, are outside every claim settled here). -/
abbrev Args := Dict

/-- First value stored under key `k`, like `d[k]` would find it. -/
def dictLookup (d : Dict) (k : String) : Option PyVal :=
  (d.find? (fun kv => kv.1 == k)).map (fun kv => kv.2)

/-- One existing entry of the base dict after `base.update(delta)`: it
keeps its key and takes the delta's value when the delta has that key. -/
def updateEntry (delta : Dict) (kv : String × PyVal) : String × PyVal :=
  match dictLookup delta kv.1 with
  | some v => (kv.1, v)
  | none => kv

/-- Python `base.update(delta)`: every key of `delta` overwrites or
extends `base`; existing keys keep their position with the new value, new
keys are appended in `delta` order. -/
def dictUpdate (base delta : Dict) : Dict :=
  base.map (updateEntry delta)
  ++ delta.filter (fun kv => !(base.any (fun kv2 => kv2.1 == kv.1)))

/-- Python `d[k] = v`: overwrite in place if the key exists, else append. -/
def dictSet (d : Dict) (k : String) (v : PyVal) : Dict :=
  if d.any (fun kv => kv.1 == k) then
    d.map (fun kv => if kv.1 == k then (k, v) else kv)
  else
    d ++ [(k, v)]

/-- A raised Python exception: either a `TypeError` carrying its message
(the one `swarm/core.py` raises itself) or any other exception identified
by its text. -/
inductive PyErr where
  | typeError : String → PyErr
  | exc : String → PyErr
deriving DecidableEq

/-- The stringification behaviour of a tool return value that is neither
a `Result` nor an `Agent`.  `str` is what Python's `str(value)` does:
`Except.ok s` when `__str__` returns `s`, `Except.error e` when it raises
an exception whose text is `e`.  `format` is what `format(value, "")`
does — this is the conversion an f-string interpolation `f"{value}"`
performs; by default `object.__format__` delegates to `__str__`, but a
class may override it, so the two behaviours are recorded separately. -/
structure OtherValue where
  str : Except String String
  format : Except String String

mutual

/-- Modelled from the spec: the `Agent` container of swarm/types.py
(absent from src/) — identity (`name`), behaviour descriptor
(`instructions`: static text or a function of context), model identifier,
ordered tool list, tool-selection policy and a parallel-tool-calls flag
(spec §3, §6). -/
inductive Agent where
  | mk
    (name : String)
    (model : String)
    (instructions : String ⊕ (Ctx → String))
    (functions : List AgentFunction)
    (tool_choice : Option String)
    (parallel_tool_calls : Bool)

/-- Modelled from the spec: one registered tool (spec §6: "any callable
accepting keyword arguments matching its declared schema").  `params`
embeds the callable's declared parameter names and `locals` the names of
its other local variables; Python's `__code__.co_varnames` — which
`Swarm.handle_tool_calls` consults — is the parameters followed by the
locals.  `function` is the callable itself, taking the keyword-argument
mapping it is invoked with. -/
inductive AgentFunction where
  | mk
    (name : String)
    (params : List String)
    (locals : List String)
    (function : Args → FuncReturn)

/-- What a tool invocation returns, before normalization: a canonical
`Result`, an `Agent` (handoff signal), or anything else (normalized via
string conversion). -/
inductive FuncReturn where
  | result : Result → FuncReturn
  | agent : Agent → FuncReturn
  | other : OtherValue → FuncReturn

/-- Modelled from the spec: the `Result` container of swarm/types.py
(absent from src/) — "a string value, an optional context-variable delta
(mapping), and an optional next-agent reference" (spec §3); the fields
default to an empty delta and no agent, as the round-trip property of
spec §8 records. -/
inductive Result where
  | mk
    (value : String)
    (context_variables : Ctx)
    (agent : Option Agent)

end

def Agent.name : Agent → String
  | .mk n _ _ _ _ _ => n

def Agent.model : Agent → String
  | .mk _ m _ _ _ _ => m

def Agent.functions : Agent → List AgentFunction
  | .mk _ _ _ fs _ _ => fs

def AgentFunction.name : AgentFunction → String
  | .mk n _ _ _ => n

def AgentFunction.params : AgentFunction → List String
  | .mk _ ps _ _ => ps

def AgentFunction.locals : AgentFunction → List String
  | .mk _ _ ls _ => ls

def AgentFunction.function : AgentFunction → (Args → FuncReturn)
  | .mk _ _ _ f => f

/-- Python's `f.__code__.co_varnames`: the callable's local variable
names, parameters first, then the other locals. -/
def AgentFunction.co_varnames (f : AgentFunction) : List String :=
  f.params ++ f.locals

def Result.value : Result → String
  | .mk v _ _ => v

def Result.context_variables : Result → Ctx
  | .mk _ cv _ => cv

def Result.agent : Result → Option Agent
  | .mk _ _ a => a

/-- Modelled from the spec: the serialized function reference inside a
tool call (`Function` in swarm/types.py, absent from src/): target
function name and argument payload (spec §3 "ToolCall"), the payload kept
here in deserialized form. -/
structure FunctionCall where
  name : String
  arguments : Args

/-- Modelled from the spec: a tool-call request produced by the backend
(`ChatCompletionMessageToolCall` in swarm/types.py, absent from src/):
identifier, function reference, call type tag (spec §3). -/
structure ToolCall where
  id : String
  function : FunctionCall
  callType : String

/-- One record of the conversation history: the roles swarm/core.py
produces or consumes (assistant completions stamped with a sender, tool
responses, system transfer notices, caller-seeded user messages). -/
inductive Message where
  | assistant (sender : String) (content : String) (tool_calls : List ToolCall)
  | tool (tool_call_id : String) (tool_name : String) (content : String)
  | system (content : String)
  | user (content : String)

/-- Modelled from the spec: the `Response` container of swarm/types.py
(absent from src/) — generated history slice, final (or dispatch-
signalled, hence optional) agent, context variables (spec §3;
`Swarm.handle_tool_calls` builds one with `agent=None`). -/
structure Response where
  messages : List Message
  agent : Option Agent
  context_variables : Ctx

/-- The reserved context-injection parameter name
(`__CTX_VARS_NAME__ = "context_variables"` in swarm/core.py). -/
def CTX_VARS_NAME : String := "context_variables"

/-- Python `json.dumps({"assistant": name})` for a name without
JSON-escaped characters, as produced in `Swarm.handle_function_result`. -/
def json_dumps_assistant (name : String) : String :=
  "\x7b\"assistant\": \"" ++ name ++ "\"\x7d"

/-- Embeds `Swarm.handle_function_result` (swarm/core.py lines 99-115):
a `Result` passes through; an `Agent` is wrapped as a handoff `Result`;
anything else is converted with `str(...)`.  When `str(result)` raises,
the `except` block evaluates the f-string
`f"Failed to cast response to string: {result}. ... Error: {str(e)}"`;
the interpolation `{result}` runs `format(result, "")`, so when that
formatting succeeds the intended `TypeError` is raised with the message,
and when it raises too (the default, since `object.__format__` delegates
to `__str__`) that formatting error propagates out of the `except` block
instead and no `TypeError` is ever constructed. -/
def handle_function_result : FuncReturn → Except PyErr Result
  | .result r => .ok r
  | .agent a => .ok (.mk (json_dumps_assistant a.name) [] (some a))
  | .other v =>
    match v.str with
    | .ok s => .ok (.mk s [] none)
    | .error e =>
      match v.format with
      | .ok m =>
        .error (.typeError ("Failed to cast response to string: " ++ m ++
          ". Make sure agent functions return a string or Result object. Error: " ++ e))
      | .error e2 => .error (.exc e2)

/-- The function `Swarm.handle_tool_calls` resolves and invokes:
`function_map = {f.name: f.function for f in functions}` is a dict
comprehension, so with duplicate names the LAST entry wins, and
`name not in function_map` is exactly `lookupFn functions name = none`. -/
def lookupFn (functions : List AgentFunction) (name : String) :
    Option AgentFunction :=
  functions.reverse.find? (fun f => f.name == name)

/-- Argument construction of `Swarm.handle_tool_calls` (lines 143-145):
`func_def` is the FIRST function of the list with the call's name
(`next((f for f in functions if f.name == name), None)`), and the live
context mapping is assigned into the payload when `__CTX_VARS_NAME__`
occurs in `func_def.function.__code__.co_varnames`. -/
def buildArgs (func_def : Option AgentFunction) (context_variables : Ctx)
    (args : Args) : Args :=
  match func_def with
  | some fd =>
    if fd.co_varnames.contains CTX_VARS_NAME then
      dictSet args CTX_VARS_NAME (.dict context_variables)
    else args
  | none => args

/-- The per-call loop of `Swarm.handle_tool_calls` (lines 127-164),
threading the aggregated `partial_response`:  a name absent from
`function_map` appends a recoverable error tool-message and continues;
otherwise the function is invoked on the (possibly context-injected)
payload, its return normalized, a tool message appended, the
context-variable delta merged right-biased into the aggregate, and the
next-agent recorded only when no earlier call set one. -/
def handle_tool_calls_go (functions : List AgentFunction) (ctx : Ctx) :
    List ToolCall → Response → Except PyErr Response
  | [], agg => .ok agg
  | tc :: rest, agg =>
    match lookupFn functions tc.function.name with
    | none =>
      handle_tool_calls_go functions ctx rest
        { agg with messages := agg.messages ++
            [Message.tool tc.id tc.function.name
              ("Error: Tool " ++ tc.function.name ++ " not found.")] }
    | some f =>
      let func_def := functions.find? (fun g => g.name == tc.function.name)
      match handle_function_result
          (f.function (buildArgs func_def ctx tc.function.arguments)) with
      | .error e => .error e
      | .ok result =>
        handle_tool_calls_go functions ctx rest
          { messages := agg.messages ++
              [Message.tool tc.id tc.function.name result.value],
            agent := match agg.agent with
              | some a => some a
              | none => result.agent,
            context_variables :=
              dictUpdate agg.context_variables result.context_variables }

/-- Embeds `Swarm.handle_tool_calls` (swarm/core.py lines 117-165),
starting from `Response(messages=[], agent=None, context_variables={})`. -/
def handle_tool_calls (tool_calls : List ToolCall)
    (functions : List AgentFunction) (context_variables : Ctx) :
    Except PyErr Response :=
  handle_tool_calls_go functions context_variables tool_calls ⟨[], none, []⟩

/-- The agent a single tool call contributes after normalization, as
`Swarm.handle_tool_calls` computes it: none when the name is unresolved
or normalization fails, else the normalized `Result`'s agent. -/
def normalizedAgent (functions : List AgentFunction) (ctx : Ctx)
    (tc : ToolCall) : Option Agent :=
  match lookupFn functions tc.function.name with
  | none => none
  | some f =>
    match handle_function_result
        (f.function (buildArgs (functions.find? (fun g => g.name == tc.function.name))
          ctx tc.function.arguments)) with
    | .ok r => r.agent
    | .error _ => none

/-- The single message a (streamed or plain) completion reduces to:
content plus the tool-call list (an absent/`None`/empty `tool_calls`
field is the empty list, matching the falsiness test
`if not message.get("tool_calls")`). -/
structure CompletionMessage where
  content : String
  tool_calls : List ToolCall

/-- The external chat-completion collaborator, as reached through
`Swarm.get_chat_completion`: an oracle from the active agent, the full
history and the context variables (strictly more than the assembled
request exposes) to the completion's message.  For the streaming path the
oracle's message stands for the delta stream after `merge_chunk`
accumulation and tool-call flattening. -/
abbrev Backend := Agent → List Message → Ctx → CompletionMessage

/-- The loop state of `Swarm.run` / `Swarm.run_and_stream`: active agent,
history, context variables, plus the number of completion requests issued
(instrumentation used by the turn-count claims). -/
structure RunState where
  active : Agent
  history : List Message
  ctx : Ctx
  completions : Nat

/-- The turn loop of `Swarm.run` (swarm/core.py lines 272-304), with the
remaining iterations of `for _ in range(max_turns)` as fuel.  Each turn:
request a completion, stamp the message with the active agent's name as
sender, append it; break when it carries no tool calls or tool execution
is disabled; otherwise dispatch (a normalization exception aborts the
run), extend the history, merge the context delta, and — when dispatch
signalled an agent other than the active one — switch agents, append the
transfer system message, and continue directly with the next turn. -/
def runLoop (backend : Backend) (execute_tools : Bool) :
    Nat → RunState → RunState × Option PyErr
  | 0, s => (s, none)
  | fuel + 1, s =>
    let c := backend s.active s.history s.ctx
    let h1 := s.history ++ [Message.assistant s.active.name c.content c.tool_calls]
    if c.tool_calls.isEmpty || !execute_tools then
      ({ s with history := h1, completions := s.completions + 1 }, none)
    else
      match handle_tool_calls c.tool_calls s.active.functions s.ctx with
      | .error e =>
        ({ s with history := h1, completions := s.completions + 1 }, some e)
      | .ok pr =>
        let h2 := h1 ++ pr.messages
        let ctx2 := dictUpdate s.ctx pr.context_variables
        match pr.agent with
        | some b =>
          if b.name == s.active.name then
            runLoop backend execute_tools fuel
              { active := s.active, history := h2, ctx := ctx2,
                completions := s.completions + 1 }
          else
            runLoop backend execute_tools fuel
              { active := b,
                history := h2 ++
                  [Message.system ("Conversation transferred to " ++ b.name)],
                ctx := ctx2, completions := s.completions + 1 }
        | none =>
          runLoop backend execute_tools fuel
            { active := s.active, history := h2, ctx := ctx2,
              completions := s.completions + 1 }

/-- Embeds `Swarm.run` (swarm/core.py lines 256-310): run the turn loop
from the caller's agent, (deep-copied) seed history and context, and
return the history slice past `init_len`, the final agent and the final
context — or propagate a raised exception. -/
def run (backend : Backend) (agent : Agent) (messages : List Message)
    (context_variables : Ctx) (max_turns : Nat) (execute_tools : Bool) :
    Except PyErr Response :=
  match runLoop backend execute_tools max_turns
      ⟨agent, messages, context_variables, 0⟩ with
  | (_, some e) => .error e
  | (s, none) =>
    .ok ⟨s.history.drop messages.length, some s.active, s.ctx⟩

/-- Number of completion requests `Swarm.run` issues before returning or
raising. -/
def runCompletions (backend : Backend) (agent : Agent)
    (messages : List Message) (context_variables : Ctx) (max_turns : Nat)
    (execute_tools : Bool) : Nat :=
  (runLoop backend execute_tools max_turns
    ⟨agent, messages, context_variables, 0⟩).1.completions

/-- The turn loop of `Swarm.run_and_stream` (swarm/core.py lines
182-247).  It differs from `runLoop` exactly where the source differs
from `Swarm.run`: the loop guard is
`while len(history) - init_len < max_turns` (history growth, not a turn
count); the accumulated message's sender is stamped with the ORIGINAL
`agent.name` (line 186), not the active agent's; and after dispatch any
signalled agent is adopted unconditionally
(`if partial_response.agent: active_agent = partial_response.agent`)
with no transfer system message.  The `fuel` argument realizes the
`while`: every iteration appends at least one message, so with
`fuel = max_turns` the guard is already false whenever the fuel runs
out, and the fuelled recursion equals the source's while loop. -/
def rasLoop (backend : Backend) (execute_tools : Bool) (sender : String)
    (init_len max_turns : Nat) : Nat → RunState → RunState × Option PyErr
  | 0, s => (s, none)
  | fuel + 1, s =>
    if s.history.length - init_len < max_turns then
      let c := backend s.active s.history s.ctx
      let h1 := s.history ++ [Message.assistant sender c.content c.tool_calls]
      if c.tool_calls.isEmpty || !execute_tools then
        ({ s with history := h1, completions := s.completions + 1 }, none)
      else
        match handle_tool_calls c.tool_calls s.active.functions s.ctx with
        | .error e =>
          ({ s with history := h1, completions := s.completions + 1 }, some e)
        | .ok pr =>
          rasLoop backend execute_tools sender init_len max_turns fuel
            { active := match pr.agent with
                | some b => b
                | none => s.active,
              history := h1 ++ pr.messages,
              ctx := dictUpdate s.ctx pr.context_variables,
              completions := s.completions + 1 }
    else (s, none)

/-- Embeds `Swarm.run_and_stream` (swarm/core.py lines 167-254), reduced
to the final `{"response": Response(...)}` event it yields after the
delta events (the per-turn delta stream, already accumulated by
`merge_chunk` and flattened, is the backend oracle's message).  An
exception raised during dispatch propagates out of the generator, which
then never yields the final event. -/
def run_and_stream (backend : Backend) (agent : Agent)
    (messages : List Message) (context_variables : Ctx) (max_turns : Nat)
    (execute_tools : Bool) : Except PyErr Response :=
  match rasLoop backend execute_tools agent.name messages.length max_turns
      max_turns ⟨agent, messages, context_variables, 0⟩ with
  | (_, some e) => .error e
  | (s, none) =>
    .ok ⟨s.history.drop messages.length, some s.active, s.ctx⟩

/-- Number of completion requests `Swarm.run_and_stream` issues. -/
def rasCompletions (backend : Backend) (agent : Agent)
    (messages : List Message) (context_variables : Ctx) (max_turns : Nat)
    (execute_tools : Bool) : Nat :=
  (rasLoop backend execute_tools agent.name messages.length max_turns
    max_turns ⟨agent, messages, context_variables, 0⟩).1.completions

/-! Association-list facts about the embedded dict operations. -/

theorem dictUpdate_nil_left (d : Dict) : dictUpdate [] d = d := by
  simp [dictUpdate]

theorem dictLookup_append (d1 d2 : Dict) (k : String) :
    dictLookup (d1 ++ d2) k = (dictLookup d1 k).or (dictLookup d2 k) := by
  unfold dictLookup
  rw [List.find?_append]
  cases d1.find? (fun kv => kv.1 == k) <;> simp

theorem dictLookup_cons (kv : String × PyVal) (rest : Dict) (k : String) :
    dictLookup (kv :: rest) k
      = if kv.1 = k then some kv.2 else dictLookup rest k := by
  unfold dictLookup
  rw [List.find?_cons]
  by_cases h : kv.1 = k
  · simp [h]
  · have hb : (kv.1 == k) = false := by simp [h]
    rw [hb, if_neg h]

theorem updateEntry_fst (delta : Dict) (kv : String × PyVal) :
    (updateEntry delta kv).1 = kv.1 := by
  unfold updateEntry
  cases dictLookup delta kv.1 <;> rfl

theorem updateEntry_snd (delta : Dict) (kv : String × PyVal) :
    (updateEntry delta kv).2 = (dictLookup delta kv.1).getD kv.2 := by
  unfold updateEntry
  cases dictLookup delta kv.1 <;> rfl

theorem dictLookup_eq_none_iff (d : Dict) (k : String) :
    dictLookup d k = none ↔ d.any (fun kv => kv.1 == k) = false := by
  induction d with
  | nil => simp [dictLookup]
  | cons kv rest ih =>
    rw [dictLookup_cons, List.any_cons]
    by_cases h : kv.1 = k <;> simp [h, ih]

theorem dictLookup_map_update (delta : Dict) (base : Dict) (k : String) :
    dictLookup (base.map (updateEntry delta)) k
      = (dictLookup base k).map (fun w => (dictLookup delta k).getD w) := by
  induction base with
  | nil => rfl
  | cons kv rest ih =>
    rw [List.map_cons, dictLookup_cons, dictLookup_cons, updateEntry_fst,
      updateEntry_snd]
    by_cases h : kv.1 = k
    · rw [if_pos h, if_pos h, h]
      rfl
    · rw [if_neg h, if_neg h, ih]

theorem dictLookup_filter_not_mem (base : Dict) (k : String)
    (hk : base.any (fun kv2 => kv2.1 == k) = false) (delta : Dict) :
    dictLookup (delta.filter
        (fun kv => !(base.any (fun kv2 => kv2.1 == kv.1)))) k
      = dictLookup delta k := by
  induction delta with
  | nil => rfl
  | cons kv rest ih =>
    rw [List.filter_cons]
    by_cases h : kv.1 = k
    · have hb : (base.any fun kv2 => kv2.1 == kv.1) = false := by
        rw [h]; exact hk
      rw [hb]
      simp only [Bool.not_false, if_true]
      rw [dictLookup_cons, dictLookup_cons, if_pos h, if_pos h]
    · cases hq : base.any (fun kv2 => kv2.1 == kv.1) with
      | true =>
        simp only [hq, Bool.not_true, Bool.false_eq_true, if_false]
        rw [ih, dictLookup_cons, if_neg h]
      | false =>
        simp only [hq, Bool.not_false, if_true]
        rw [dictLookup_cons, dictLookup_cons, if_neg h, if_neg h, ih]

theorem dictLookup_update (base delta : Dict) (k : String) :
    dictLookup (dictUpdate base delta) k
      = (dictLookup delta k).or (dictLookup base k) := by
  unfold dictUpdate
  rw [dictLookup_append, dictLookup_map_update]
  cases hb : dictLookup base k with
  | none =>
    have hany : base.any (fun kv => kv.1 == k) = false :=
      (dictLookup_eq_none_iff base k).mp hb
    rw [dictLookup_filter_not_mem base k hany]
    cases dictLookup delta k <;> simp
  | some w =>
    cases dictLookup delta k <;> simp

/-! Turn-count facts about the `Swarm.run` loop. -/

theorem runLoop_completions_le (backend : Backend) (et : Bool) :
    ∀ (fuel : Nat) (s : RunState),
      (runLoop backend et fuel s).1.completions ≤ s.completions + fuel := by
  intro fuel
  induction fuel with
  | zero =>
    intro s
    simp [runLoop]
  | succ n ih =>
    intro s
    rw [runLoop]
    dsimp only
    split
    · simp
    · split
      · simp
      · split
        · split
          · refine le_trans (ih _) ?_
            dsimp only
            omega
          · refine le_trans (ih _) ?_
            dsimp only
            omega
        · refine le_trans (ih _) ?_
          dsimp only
          omega

/-- Claim C10: calling `Swarm.run` with `max_turns = 0` performs no
completion request and returns a `Response` with empty messages, the
input agent unchanged, and the (copied) initial context variables. -/
theorem run_zero_turns (backend : Backend) (agent : Agent)
    (messages : List Message) (ctx : Ctx) (execute_tools : Bool) :
    runCompletions backend agent messages ctx 0 execute_tools = 0 ∧
    run backend agent messages ctx 0 execute_tools =
      .ok ⟨[], some agent, ctx⟩ := by
  constructor
  · rfl
  · simp [run, runLoop]

/-- Claim C2: `Swarm.run` issues at most `max_turns` completion requests
to the backend before returning, for every backend, agent, seed history,
context and tool-execution flag. -/
theorem completions_le_max_turns (backend : Backend) (agent : Agent)
    (messages : List Message) (ctx : Ctx) (max_turns : Nat)
    (execute_tools : Bool) :
    runCompletions backend agent messages ctx max_turns execute_tools
      ≤ max_turns := by
  have h := runLoop_completions_le backend execute_tools max_turns
    ⟨agent, messages, ctx, 0⟩
  simpa using h

/-- Claim C1, amended: for an agent whose functions list is empty and any
`max_turns > 0`, PROVIDED the backend's reply to the first completion
request carries no tool calls (the bundled `LocalModelClient` never
produces any), `Swarm.run` performs exactly one completion request and
returns a `Response` whose messages are the single assistant message
stamped with the agent's name as sender.  Without that proviso the claim
fails: `Swarm.run` never checks that replies only call offered tools, see
the counterexample. -/
theorem no_tool_calls_single_turn (backend : Backend) (agent : Agent)
    (messages : List Message) (ctx : Ctx) (n : Nat) (execute_tools : Bool)
    (_hfns : agent.functions = [])
    (hno : (backend agent messages ctx).tool_calls = []) :
    runCompletions backend agent messages ctx (n + 1) execute_tools = 1 ∧
    run backend agent messages ctx (n + 1) execute_tools =
      .ok ⟨[Message.assistant agent.name
              (backend agent messages ctx).content []],
           some agent, ctx⟩ := by
  have hloop : runLoop backend execute_tools (n + 1) ⟨agent, messages, ctx, 0⟩
      = ({ active := agent,
           history := messages ++
             [Message.assistant agent.name
               (backend agent messages ctx).content []],
           ctx := ctx, completions := 1 }, none) := by
    rw [runLoop]
    dsimp only
    rw [hno]
    simp
  constructor
  · rw [runCompletions, hloop]
  · rw [run, hloop]
    simp [List.drop_left]

/-- Agent with an empty functions list, used by concrete scenarios. -/
def cexAgentA : Agent := .mk "A" "m" (Sum.inl "sys") [] none true

/-- A tool call naming a function `"t"` that no fixture agent defines. -/
def cexCallT : ToolCall := ⟨"c1", ⟨"t", []⟩, "function"⟩

/-- A backend whose replies always request tool `"t"`. -/
def cexToolBackend : Backend := fun _ _ _ => ⟨"hi", [cexCallT]⟩

/-- Claim C1 counterexample: against a backend whose replies carry a tool
call, the agent with NO functions and `max_turns = 2 > 0` drives
`Swarm.run` through two completion requests and a four-message response
(each unresolved call is a recoverable error message and the loop keeps
going), not one completion and one message as the claim states. -/
theorem no_tools_agent_counterexample :
    cexAgentA.functions = [] ∧ (0 : Nat) < 2 ∧
    runCompletions cexToolBackend cexAgentA [] [] 2 true = 2 ∧
    (run cexToolBackend cexAgentA [] [] 2 true).map
      (fun r => r.messages.length) = .ok 4 :=
  ⟨rfl, by decide, rfl, rfl⟩

/-- A backend whose replies never carry tool calls, like the repository's
`LocalModelClient`. -/
def plainBackend : Backend := fun _ _ _ => ⟨"hello", []⟩

/-- Witness for `no_tool_calls_single_turn` at a concrete input. -/
theorem no_tool_calls_single_turn_witness :
    runCompletions plainBackend cexAgentA [] [] 3 true = 1 ∧
    run plainBackend cexAgentA [] [] 3 true =
      .ok ⟨[Message.assistant "A" "hello" []], some cexAgentA, []⟩ :=
  no_tool_calls_single_turn plainBackend cexAgentA [] [] 2 true rfl rfl

/-! Accumulator characterizations of the tool-dispatch loop. -/

theorem handle_tool_calls_go_agent (functions : List AgentFunction)
    (ctx : Ctx) :
    ∀ (tcs : List ToolCall) (agg pr : Response),
      handle_tool_calls_go functions ctx tcs agg = .ok pr →
      pr.agent = (match agg.agent with
        | some a => some a
        | none => (tcs.filterMap (normalizedAgent functions ctx)).head?) := by
  intro tcs
  induction tcs with
  | nil =>
    intro agg pr h
    simp only [handle_tool_calls_go, Except.ok.injEq] at h
    subst h
    cases agg.agent <;> simp
  | cons tc rest ih =>
    intro agg pr h
    simp only [handle_tool_calls_go] at h
    cases hlk : lookupFn functions tc.function.name with
    | none =>
      rw [hlk] at h
      have hr := ih _ _ h
      have hna : normalizedAgent functions ctx tc = none := by
        unfold normalizedAgent
        rw [hlk]
      rw [hr, List.filterMap_cons, hna]
    | some f =>
      rw [hlk] at h
      simp only at h
      cases hres : handle_function_result (f.function
          (buildArgs (functions.find? fun g => g.name == tc.function.name)
            ctx tc.function.arguments)) with
      | error e =>
        rw [hres] at h
        simp at h
      | ok result =>
        rw [hres] at h
        have hr := ih _ _ h
        have hna : normalizedAgent functions ctx tc = result.agent := by
          simp only [normalizedAgent, hlk, hres]
        rw [hr, List.filterMap_cons, hna]
        dsimp only
        cases hag : agg.agent with
        | some a => simp
        | none => cases result.agent <;> simp

theorem handle_tool_calls_go_messages (functions : List AgentFunction)
    (ctx : Ctx) :
    ∀ (tcs : List ToolCall) (ms : List Message) (ag : Option Agent)
      (cv : Ctx),
      handle_tool_calls_go functions ctx tcs ⟨ms, ag, cv⟩
        = (handle_tool_calls_go functions ctx tcs ⟨[], ag, cv⟩).map
            (fun q => ⟨ms ++ q.messages, q.agent, q.context_variables⟩) := by
  intro tcs
  induction tcs with
  | nil =>
    intro ms ag cv
    simp [handle_tool_calls_go, Except.map]
  | cons tc rest ih =>
    intro ms ag cv
    simp only [handle_tool_calls_go]
    cases hlk : lookupFn functions tc.function.name with
    | none =>
      dsimp only
      rw [List.nil_append]
      rw [ih (ms ++ [Message.tool tc.id tc.function.name
        ("Error: Tool " ++ tc.function.name ++ " not found.")]) ag cv]
      rw [ih [Message.tool tc.id tc.function.name
        ("Error: Tool " ++ tc.function.name ++ " not found.")] ag cv]
      cases handle_tool_calls_go functions ctx rest ⟨[], ag, cv⟩ <;>
        simp [Except.map, List.append_assoc]
    | some f =>
      dsimp only
      cases hres : handle_function_result (f.function
          (buildArgs (functions.find? fun g => g.name == tc.function.name)
            ctx tc.function.arguments)) with
      | error e => rfl
      | ok result =>
        dsimp only
        rw [List.nil_append]
        rw [ih (ms ++ [Message.tool tc.id tc.function.name result.value])
          (match ag with | some a => some a | none => result.agent)
          (dictUpdate cv result.context_variables)]
        rw [ih [Message.tool tc.id tc.function.name result.value]
          (match ag with | some a => some a | none => result.agent)
          (dictUpdate cv result.context_variables)]
        cases handle_tool_calls_go functions ctx rest
            ⟨[], match ag with | some a => some a | none => result.agent,
             dictUpdate cv result.context_variables⟩ <;>
          simp [Except.map, List.append_assoc]

/-! Fixtures for the handoff and unknown-tool scenarios. -/

/-- Agent X, a handoff target. -/
def agentX : Agent := .mk "X" "m" (Sum.inl "sx") [] none true

/-- Agent Y, a handoff target. -/
def agentY : Agent := .mk "Y" "m" (Sum.inl "sy") [] none true

/-- A tool whose invocation returns Agent X. -/
def toolReturnX : AgentFunction := .mk "to_x" [] [] (fun _ => .agent agentX)

/-- A tool whose invocation returns Agent Y. -/
def toolReturnY : AgentFunction := .mk "to_y" [] [] (fun _ => .agent agentY)

/-- A tool call to `to_x`. -/
def callToX : ToolCall := ⟨"h1", ⟨"to_x", []⟩, "function"⟩

/-- A tool call to `to_y`. -/
def callToY : ToolCall := ⟨"h2", ⟨"to_y", []⟩, "function"⟩

/-- Agent carrying both handoff tools. -/
def handoffAgent : Agent :=
  .mk "H" "m" (Sum.inl "sh") [toolReturnX, toolReturnY] none true

/-- Backend whose reply requests both handoff tools in one turn. -/
def handoffBackend : Backend := fun _ _ _ => ⟨"", [callToX, callToY]⟩

/-- Claim C3: within one turn of `Swarm.handle_tool_calls` the next-agent
recorded in the aggregated response is the one of the earliest tool call
whose normalized Result carries an agent (first-wins); in particular two
calls returning Agent X then Agent Y leave X recorded and X becomes the
active agent after the turn. -/
theorem handoff_first_wins :
    (∀ (functions : List AgentFunction) (ctx : Ctx) (tcs : List ToolCall)
      (pr : Response),
      handle_tool_calls tcs functions ctx = .ok pr →
      pr.agent = (tcs.filterMap (normalizedAgent functions ctx)).head?) ∧
    (handle_tool_calls [callToX, callToY] [toolReturnX, toolReturnY] []
      = .ok ⟨[Message.tool "h1" "to_x" (json_dumps_assistant "X"),
              Message.tool "h2" "to_y" (json_dumps_assistant "Y")],
             some agentX, []⟩) ∧
    ((run handoffBackend handoffAgent [] [] 1 true).map (fun r => r.agent)
      = .ok (some agentX)) := by
  refine ⟨?_, rfl, rfl⟩
  intro functions ctx tcs pr h
  have hg := handle_tool_calls_go_agent functions ctx tcs ⟨[], none, []⟩ pr h
  simpa using hg

/-- Witness for `handoff_first_wins` at a concrete input. -/
theorem handoff_first_wins_witness :
    (⟨[Message.tool "h1" "to_x" (json_dumps_assistant "X"),
       Message.tool "h2" "to_y" (json_dumps_assistant "Y")],
      some agentX, []⟩ : Response).agent =
      ([callToX, callToY].filterMap
        (normalizedAgent [toolReturnX, toolReturnY] [])).head? :=
  handoff_first_wins.1 [toolReturnX, toolReturnY] [] [callToX, callToY] _ rfl

/-- Claim C5: a tool call whose function name is absent from the active
agent's function set does not raise: `Swarm.handle_tool_calls` appends a
tool-role message with content exactly
`"Error: Tool <name> not found."` and continues with the remaining calls
of the turn (shown both in general and on the spec's `missing_tool`
example, where a later call still executes). -/
theorem unknown_tool_recoverable :
    (∀ (functions : List AgentFunction) (ctx : Ctx) (tc : ToolCall)
      (rest : List ToolCall),
      (∀ f ∈ functions, f.name ≠ tc.function.name) →
      handle_tool_calls (tc :: rest) functions ctx
        = (handle_tool_calls rest functions ctx).map
            (fun pr => ⟨Message.tool tc.id tc.function.name
                ("Error: Tool " ++ tc.function.name ++ " not found.")
                :: pr.messages,
              pr.agent, pr.context_variables⟩)) ∧
    (handle_tool_calls [⟨"m1", ⟨"missing_tool", []⟩, "function"⟩, callToX]
        [toolReturnX] []
      = .ok ⟨[Message.tool "m1" "missing_tool"
                "Error: Tool missing_tool not found.",
              Message.tool "h1" "to_x" (json_dumps_assistant "X")],
             some agentX, []⟩) := by
  refine ⟨?_, rfl⟩
  intro functions ctx tc rest hmiss
  have hlk : lookupFn functions tc.function.name = none := by
    unfold lookupFn
    rw [List.find?_eq_none]
    intro f hf
    have hne := hmiss f (List.mem_reverse.mp hf)
    simp [hne]
  unfold handle_tool_calls
  simp only [handle_tool_calls_go, hlk]
  rw [List.nil_append]
  rw [handle_tool_calls_go_messages functions ctx rest _ none []]
  cases handle_tool_calls_go functions ctx rest ⟨[], none, []⟩ <;>
    simp [Except.map]

/-- Witness for `unknown_tool_recoverable` at a concrete input. -/
theorem unknown_tool_recoverable_witness :
    handle_tool_calls [⟨"m1", ⟨"missing_tool", []⟩, "function"⟩]
        [toolReturnX] []
      = (handle_tool_calls ([] : List ToolCall) [toolReturnX] []).map
          (fun pr => ⟨Message.tool "m1" "missing_tool"
              "Error: Tool missing_tool not found." :: pr.messages,
            pr.agent, pr.context_variables⟩) :=
  unknown_tool_recoverable.1 [toolReturnX] []
    ⟨"m1", ⟨"missing_tool", []⟩, "function"⟩ [] (by decide)

/-- A tool returning a canonical `Result` with value "v" and
context-variable delta `d`. -/
def deltaTool (name : String) (d : Ctx) : AgentFunction :=
  .mk name [] [] (fun _ => .result (.mk "v" d none))

/-- A tool call with an empty payload to the named function. -/
def callNamed (id name : String) : ToolCall := ⟨id, ⟨name, []⟩, "function"⟩

/-- Claim C4: context merging is right-biased at every merge point: the
merged dict resolves every key to the delta's value when present
(later keys overwrite earlier ones), the claim's example
`{a:1} ∪ {a:2,b:3} = {a:2,b:3}` holds, the within-turn aggregate of
`Swarm.handle_tool_calls` merges two tools' deltas as
`dictUpdate d1 d2`, and `Swarm.run` merges the turn's aggregate delta
into the running context as `dictUpdate base d`. -/
theorem context_merge_right_biased :
    (∀ (base delta : Dict) (k : String),
      dictLookup (dictUpdate base delta) k
        = (dictLookup delta k).or (dictLookup base k)) ∧
    (dictUpdate [("a", .int 1)] [("a", .int 2), ("b", .int 3)]
      = [("a", .int 2), ("b", .int 3)]) ∧
    (∀ (ctx d1 d2 : Ctx),
      handle_tool_calls [callNamed "t1" "f1", callNamed "t2" "f2"]
          [deltaTool "f1" d1, deltaTool "f2" d2] ctx
        = .ok ⟨[Message.tool "t1" "f1" "v", Message.tool "t2" "f2" "v"],
               none, dictUpdate d1 d2⟩) ∧
    (∀ (base d : Ctx),
      (run (fun _ _ _ => ⟨"", [callNamed "t1" "f1"]⟩)
          (.mk "A" "m" (Sum.inl "s") [deltaTool "f1" d] none true)
          [] base 1 true).map (fun r => r.context_variables)
        = .ok (dictUpdate base d)) := by
  refine ⟨dictLookup_update, rfl, ?_, ?_⟩
  · intro ctx d1 d2
    have h0 : handle_tool_calls [callNamed "t1" "f1", callNamed "t2" "f2"]
        [deltaTool "f1" d1, deltaTool "f2" d2] ctx
      = .ok ⟨[Message.tool "t1" "f1" "v", Message.tool "t2" "f2" "v"],
             none, dictUpdate (dictUpdate [] d1) d2⟩ := rfl
    rw [h0, dictUpdate_nil_left]
  · intro base d
    have h0 : (run (fun _ _ _ => ⟨"", [callNamed "t1" "f1"]⟩)
        (.mk "A" "m" (Sum.inl "s") [deltaTool "f1" d] none true)
        [] base 1 true).map (fun r => r.context_variables)
      = .ok (dictUpdate base (dictUpdate [] d)) := rfl
    rw [h0, dictUpdate_nil_left]

/-- Claim C6, amended: the three-shape normalization contract of
`Swarm.handle_function_result`: a `Result` passes through unchanged; an
`Agent` wraps into a `Result` whose value is the JSON object
naming the agent and whose agent is that agent; any other value is
converted with `str(...)` into a `Result` with that string value, empty
context delta and no agent (so the plain string "ok" round-trips).  When
string conversion fails, the promised `TypeError` naming the offending
value and original error is raised only when the f-string's
`format(...)` of the value succeeds; when formatting fails like `str`
did (the default: `object.__format__` delegates to `__str__`), the
formatting error propagates instead and no `TypeError` is raised. -/
theorem handle_function_result_contract :
    (∀ r : Result, handle_function_result (.result r) = .ok r) ∧
    (∀ a : Agent, handle_function_result (.agent a)
      = .ok (.mk (json_dumps_assistant a.name) [] (some a))) ∧
    (∀ (v : OtherValue) (s : String), v.str = .ok s →
      handle_function_result (.other v) = .ok (.mk s [] none)) ∧
    (handle_function_result (.other ⟨.ok "ok", .ok "ok"⟩)
      = .ok (.mk "ok" [] none)) ∧
    (∀ (v : OtherValue) (e m : String),
      v.str = .error e → v.format = .ok m →
      handle_function_result (.other v)
        = .error (.typeError ("Failed to cast response to string: " ++ m ++
            ". Make sure agent functions return a string or Result object. Error: "
            ++ e))) ∧
    (∀ (v : OtherValue) (e e2 : String),
      v.str = .error e → v.format = .error e2 →
      handle_function_result (.other v) = .error (.exc e2)) := by
  refine ⟨fun r => rfl, fun a => rfl, ?_, rfl, ?_, ?_⟩
  · intro v s hs
    simp [handle_function_result, hs]
  · intro v e m hs hf
    simp [handle_function_result, hs, hf]
  · intro v e e2 hs hf
    simp [handle_function_result, hs, hf]

/-- Claim C6 counterexample: a tool return value whose `str` raises
("boom") and whose default `format` delegates to the same failing `str`
makes `Swarm.handle_function_result` re-raise the original error while
interpolating the f-string of the `except` block — the raised exception
is not a `TypeError`, contradicting the claim's failure clause. -/
theorem handle_function_result_str_failure_cex :
    handle_function_result (.other ⟨.error "boom", .error "boom"⟩)
      = .error (.exc "boom") ∧
    (∀ msg : String, PyErr.exc "boom" ≠ PyErr.typeError msg) :=
  ⟨rfl, fun _ h => PyErr.noConfusion h⟩

/-- Witness for `handle_function_result_contract` at concrete inputs. -/
theorem handle_function_result_contract_witness :
    handle_function_result (.other ⟨.ok "ok", .ok "ok"⟩)
      = .ok (.mk "ok" [] none) ∧
    handle_function_result (.other ⟨.error "e1", .ok "V"⟩)
      = .error (.typeError ("Failed to cast response to string: " ++ "V" ++
          ". Make sure agent functions return a string or Result object. Error: "
          ++ "e1")) ∧
    handle_function_result (.other ⟨.error "e1", .error "e2"⟩)
      = .error (.exc "e2") :=
  ⟨handle_function_result_contract.2.2.1 ⟨.ok "ok", .ok "ok"⟩ "ok" rfl,
   handle_function_result_contract.2.2.2.2.1 ⟨.error "e1", .ok "V"⟩
     "e1" "V" rfl rfl,
   handle_function_result_contract.2.2.2.2.2 ⟨.error "e1", .error "e2"⟩
     "e1" "e2" rfl rfl⟩

/-- Claim C7: when a turn's tool dispatch signals an agent different from
the active one, `Swarm.run` replaces the active agent, appends the system
message recording the transfer, and continues directly with the next
turn: one step of the loop rewrites to the loop over the remaining turns
from the switched state, with no termination re-check of the message just
produced. -/
theorem agent_switch_appends_transfer (backend : Backend) (n : Nat)
    (s : RunState) (pr : Response) (b : Agent)
    (h1 : (backend s.active s.history s.ctx).tool_calls.isEmpty = false)
    (h2 : handle_tool_calls (backend s.active s.history s.ctx).tool_calls
        s.active.functions s.ctx = .ok pr)
    (h3 : pr.agent = some b)
    (h4 : (b.name == s.active.name) = false) :
    runLoop backend true (n + 1) s
      = runLoop backend true n
          { active := b,
            history := (s.history ++
              [Message.assistant s.active.name
                (backend s.active s.history s.ctx).content
                (backend s.active s.history s.ctx).tool_calls]) ++
              pr.messages ++
              [Message.system ("Conversation transferred to " ++ b.name)],
            ctx := dictUpdate s.ctx pr.context_variables,
            completions := s.completions + 1 } := by
  rw [runLoop]
  simp only [h1, h2, h3, h4, Bool.not_true, Bool.or_false,
    Bool.false_eq_true, if_false]

/-- Handoff target agent B for the transfer scenario. -/
def agentB7 : Agent := .mk "B" "m" (Sum.inl "sb") [] none true

/-- A tool `transfer` returning Agent B. -/
def transferTool : AgentFunction := .mk "transfer" [] [] (fun _ => .agent agentB7)

/-- Agent A owning the `transfer` tool. -/
def agentA7 : Agent := .mk "A" "m" (Sum.inl "sa") [transferTool] none true

/-- A tool call to `transfer`. -/
def transferCall : ToolCall := ⟨"t1", ⟨"transfer", []⟩, "function"⟩

/-- Backend whose reply requests `transfer`. -/
def transferBackend : Backend := fun _ _ _ => ⟨"", [transferCall]⟩

/-- Loop state seeded with one user message, agent A active. -/
def s7 : RunState := ⟨agentA7, [Message.user "hi"], [], 0⟩

/-- The dispatch aggregate of the transfer turn. -/
def pr7 : Response :=
  ⟨[Message.tool "t1" "transfer" (json_dumps_assistant "B")], some agentB7, []⟩

/-- Witness for `agent_switch_appends_transfer` at a concrete input. -/
theorem agent_switch_appends_transfer_witness :
    runLoop transferBackend true 2 s7
      = runLoop transferBackend true 1
          { active := agentB7,
            history := (s7.history ++
              [Message.assistant s7.active.name
                (transferBackend s7.active s7.history s7.ctx).content
                (transferBackend s7.active s7.history s7.ctx).tool_calls]) ++
              pr7.messages ++
              [Message.system ("Conversation transferred to " ++ agentB7.name)],
            ctx := dictUpdate s7.ctx pr7.context_variables,
            completions := s7.completions + 1 } :=
  agent_switch_appends_transfer transferBackend 1 s7 pr7 agentB7 rfl rfl rfl rfl

/-- Claim C8, amended: `Swarm.run_and_stream`'s loop differs from
`Swarm.run`'s — its guard bounds the number of messages appended since
the start (`len(history) - init_len < max_turns`), not the number of
turns; after dispatch it adopts any signalled agent unconditionally and
appends no transfer message; and it stamps the accumulated message's
sender with the original agent's name.  Its final Response event equals
`run`'s Response whenever the first completion carries no tool calls or
tool execution is disabled (then both stop after at most one completion);
in general the two differ, see the counterexample. -/
theorem run_and_stream_agrees_without_tools (backend : Backend)
    (agent : Agent) (messages : List Message) (ctx : Ctx) (mt : Nat)
    (et : Bool)
    (h : (backend agent messages ctx).tool_calls = [] ∨ et = false) :
    run_and_stream backend agent messages ctx mt et
      = run backend agent messages ctx mt et := by
  cases mt with
  | zero => rfl
  | succ k =>
    unfold run_and_stream run
    rw [rasLoop, runLoop]
    dsimp only
    rw [Nat.sub_self]
    rw [if_pos (Nat.succ_pos k)]
    cases h with
    | inl hno =>
      rw [hno]
      simp
    | inr het =>
      subst het
      simp

/-- Witness for `run_and_stream_agrees_without_tools` at a concrete
input. -/
theorem run_and_stream_agrees_without_tools_witness :
    run_and_stream plainBackend cexAgentA [] [] 5 true
      = run plainBackend cexAgentA [] [] 5 true :=
  run_and_stream_agrees_without_tools plainBackend cexAgentA [] [] 5 true
    (Or.inl rfl)

/-- A tool `t` returning the plain-string result "ok". -/
def okTool : AgentFunction :=
  .mk "t" [] [] (fun _ => .result (.mk "ok" [] none))

/-- Agent owning tool `t`. -/
def agent8 : Agent := .mk "A" "m" (Sum.inl "s8") [okTool] none true

/-- Claim C8 counterexample: with a backend requesting tool `t` every
turn and `max_turns = 2`, `Swarm.run` performs two completions and
returns four messages, while `Swarm.run_and_stream`'s final Response
event carries two messages after a single completion (its guard counts
the two appended messages, not turns): the two paths do not terminate
under the same conditions and their final Responses differ. -/
theorem run_and_stream_divergence_cex :
    (run cexToolBackend agent8 [] [] 2 true).map
      (fun r => r.messages.length) = .ok 4 ∧
    (run_and_stream cexToolBackend agent8 [] [] 2 true).map
      (fun r => r.messages.length) = .ok 2 ∧
    runCompletions cexToolBackend agent8 [] [] 2 true = 2 ∧
    rasCompletions cexToolBackend agent8 [] [] 2 true = 1 :=
  ⟨rfl, rfl, rfl, rfl⟩

/-- A probe tool reporting the names of the arguments it was invoked
with as its result value. -/
def probeFn : Args → FuncReturn :=
  fun args =>
    .result (.mk (String.intercalate "," (args.map (fun kv => kv.1))) [] none)

/-- Probe whose signature declares the reserved parameter. -/
def probeWithParam : AgentFunction :=
  .mk "probe" ["x", "context_variables"] [] probeFn

/-- Probe with neither a parameter nor a local named
`context_variables`. -/
def probeNoCtx : AgentFunction := .mk "probe2" ["x"] ["y"] probeFn

/-- Probe whose signature lacks the reserved name but whose code object
has a LOCAL variable of that name (so `co_varnames` contains it). -/
def probeLocalCtx : AgentFunction := .mk "ploc" ["x"] ["context_variables"] probeFn

/-- Claim C9, amended: `Swarm.handle_tool_calls` injects the live
context mapping as the reserved `context_variables` argument iff the
name occurs in the located function's `__code__.co_varnames` (its
parameters followed by its other locals), not iff the signature declares
such a parameter: every function declaring the parameter is injected
(parameters are a prefix of co_varnames) and functions without the name
anywhere receive only the deserialized payload arguments, but a function
with merely a local of that name is injected too. -/
theorem context_injection_co_varnames :
    (∀ (fd : AgentFunction) (ctx : Ctx) (args : Args),
      fd.co_varnames.contains CTX_VARS_NAME = true →
      buildArgs (some fd) ctx args
        = dictSet args CTX_VARS_NAME (.dict ctx)) ∧
    (∀ (fd : AgentFunction) (ctx : Ctx) (args : Args),
      fd.co_varnames.contains CTX_VARS_NAME = false →
      buildArgs (some fd) ctx args = args) ∧
    (∀ (fd : AgentFunction) (ctx : Ctx) (args : Args),
      fd.params.contains CTX_VARS_NAME = true →
      buildArgs (some fd) ctx args
        = dictSet args CTX_VARS_NAME (.dict ctx)) ∧
    (∀ ctx : Ctx,
      handle_tool_calls [⟨"p1", ⟨"probe", [("x", .int 1)]⟩, "function"⟩]
          [probeWithParam] ctx
        = .ok ⟨[Message.tool "p1" "probe" "x,context_variables"],
               none, []⟩) ∧
    (∀ ctx : Ctx,
      handle_tool_calls [⟨"p2", ⟨"probe2", [("x", .int 1)]⟩, "function"⟩]
          [probeNoCtx] ctx
        = .ok ⟨[Message.tool "p2" "probe2" "x"], none, []⟩) := by
  have p1 : ∀ (fd : AgentFunction) (ctx : Ctx) (args : Args),
      fd.co_varnames.contains CTX_VARS_NAME = true →
      buildArgs (some fd) ctx args
        = dictSet args CTX_VARS_NAME (.dict ctx) := by
    intro fd ctx args h
    unfold buildArgs
    dsimp only
    rw [h]
    simp
  refine ⟨p1, ?_, ?_, fun ctx => rfl, fun ctx => rfl⟩
  · intro fd ctx args h
    unfold buildArgs
    dsimp only
    rw [h]
    simp
  · intro fd ctx args h
    apply p1
    unfold AgentFunction.co_varnames
    rw [List.contains_eq_any_beq] at h ⊢
    rw [List.any_append, h, Bool.true_or]

/-- Claim C9 counterexample: the probe whose SIGNATURE lacks the
reserved parameter but whose code object has a local of that name is
still injected — the invocation receives `x` and `context_variables`,
not only the payload argument `x`. -/
theorem context_injection_local_var_cex :
    probeLocalCtx.params.contains CTX_VARS_NAME = false ∧
    handle_tool_calls [⟨"p3", ⟨"ploc", [("x", .int 1)]⟩, "function"⟩]
        [probeLocalCtx] [("k", .str "v")]
      = .ok ⟨[Message.tool "p3" "ploc" "x,context_variables"], none, []⟩ ∧
    buildArgs (some probeLocalCtx) [("k", .str "v")] [("x", .int 1)]
      = [("x", .int 1),
         ("context_variables", .dict [("k", .str "v")])] :=
  ⟨rfl, rfl, rfl⟩

/-- Witness for `context_injection_co_varnames` at concrete inputs. -/
theorem context_injection_co_varnames_witness :
    buildArgs (some probeWithParam) [("k", .str "v")] [("x", .int 1)]
      = dictSet [("x", .int 1)] CTX_VARS_NAME (.dict [("k", .str "v")]) ∧
    buildArgs (some probeNoCtx) [("k", .str "v")] [("x", .int 1)]
      = [("x", .int 1)] ∧
    handle_tool_calls [⟨"p1", ⟨"probe", [("x", .int 1)]⟩, "function"⟩]
        [probeWithParam] []
      = .ok ⟨[Message.tool "p1" "probe" "x,context_variables"], none, []⟩ :=
  ⟨context_injection_co_varnames.1 probeWithParam [("k", .str "v")]
     [("x", .int 1)] rfl,
   context_injection_co_varnames.2.1 probeNoCtx [("k", .str "v")]
     [("x", .int 1)] rfl,
   context_injection_co_varnames.2.2.2.1 []⟩

end Swarm
